import Mathlib

/-!
Verification development for the tigl-mcp repository (CPACS/TiGL MCP server).

The Python sources are shallowly embedded:
* Python strings are `List Char` (`Str`), Python byte strings are `List Nat`
  (one `Nat` per byte value).
* Python floats are modelled as exact rationals (`Rat`); the spec's tolerance
  of 1e-9 on parameter arithmetic makes this idealization faithful for the
  properties below.
* Python dicts are association lists with unique keys, with `dictGet`,
  `dictSet` (in-place overwrite / append) and `dictDel` (remove key).
* A raised Python exception is a `PyRaise` value: `.mcp ty msg` embeds an
  `MCPError` raised by `raise_mcp_error` (the optional `details` payload is
  elided — no claim refers to it), and `.exc msg` embeds any other exception
  (`ValueError`, `TypeError`, pydantic `ValidationError`, ...).
* The external geometry engine (real TiGL bindings, meshio, the filesystem)
  is outside the repository and outside the spec's scope; each engine call is
  an oracle parameter whose outcome (bytes produced or exception raised) is
  universally quantified.
-/

namespace TiglMcp

/-- Python strings, modelled as lists of characters. -/
abbrev Str := List Char

/-- Coerce a Lean string literal into the `Str` model. -/
def str (s : String) : Str := s.data

/-- Bytes of a Python byte string (one `Nat` per byte). -/
abbrev Bytes := List Nat

/-- Encode an ASCII text as bytes, as Python's `.encode("ascii")` /
`.encode("utf-8")` on ASCII content does. -/
def strBytes (s : Str) : Bytes := s.map Char.toNat

/-- Python values that can sit in a component's parameter map or in an
update request: numbers (ints and floats collapse to `Rat`) or strings. -/
inductive PVal where
  | num (x : Rat)
  | txt (v : Str)
deriving DecidableEq, Repr

/-- An exception escaping a piece of Python code: either a structured
`MCPError` (from `raise_mcp_error`, module `errors.py`) with its error type
and message, or any other exception with a descriptive message. -/
inductive PyRaise where
  | mcp (etype : Str) (msg : Str)
  | exc (msg : Str)
deriving DecidableEq, Repr

/-! ## Dict model (Python `dict` with string keys) -/

/-- Lookup in a Python dict: `d.get(k)`. -/
def dictGet {α : Type} (m : List (Str × α)) (k : Str) : Option α :=
  match m with
  | [] => none
  | (k', v) :: rest => if k' = k then some v else dictGet rest k

/-- Assignment `d[k] = v`: overwrite in place when the key exists, append
otherwise (Python dicts preserve insertion order). -/
def dictSet {α : Type} (m : List (Str × α)) (k : Str) (v : α) : List (Str × α) :=
  match m with
  | [] => [(k, v)]
  | (k', v') :: rest => if k' = k then (k, v) :: rest else (k', v') :: dictSet rest k v

/-- Deletion `del d[k]`: remove the key's entry (a Python dict holds each key
at most once, so removing every match is the same operation). -/
def dictDel {α : Type} (m : List (Str × α)) (k : Str) : List (Str × α) :=
  m.filter (fun kv => kv.1 ≠ k)

/-! ## Python `float()` on plain decimal strings

`_apply_update` and `_parse_components` call `float(raw)` on strings.  The
strings the server feeds it are plain optionally-signed decimals; the model
covers exactly that fragment (sign, integer digits, optional fractional
digits) and treats everything else as a `ValueError`. -/

/-- Numeric value of a digit string (assumes all characters are digits). -/
def natOfDigits (s : Str) : Nat :=
  s.foldl (fun a c => a * 10 + (c.toNat - 48)) 0

/-- Split a string at its first `'.'`, if any. -/
def splitDot : Str → Str × Option Str
  | [] => ([], none)
  | c :: t =>
    if c = '.' then ([], some t)
    else
      let p := splitDot t
      (c :: p.1, p.2)

/-- Parse an unsigned decimal: digits with an optional fractional part.
At least one digit must be present overall. -/
def parseUnsigned? (s : Str) : Option Rat :=
  let p := splitDot s
  match p.2 with
  | none =>
    if p.1 ≠ [] ∧ p.1.all Char.isDigit then some ((natOfDigits p.1 : Nat) : Rat) else none
  | some frac =>
    if (p.1 ++ frac) ≠ [] ∧ p.1.all Char.isDigit ∧ frac.all Char.isDigit then
      some (((natOfDigits p.1 : Nat) : Rat) + ((natOfDigits frac : Nat) : Rat) / (10 ^ frac.length : Nat))
    else none

/-- Python `float(s)` on the plain-decimal fragment: optional sign, then an
unsigned decimal.  `none` models the `ValueError` that `float` raises. -/
def parseFloat? (s : Str) : Option Rat :=
  match s with
  | '+' :: t => parseUnsigned? t
  | '-' :: t => (parseUnsigned? t).map (fun x => -x)
  | t => parseUnsigned? t

/-! ## `_apply_update` (tools/parameters.py) -/

/-- Python `s.rstrip("%")`: drop every trailing `'%'`. -/
def rstripPercent (s : Str) : Str :=
  (s.reverse.dropWhile (fun c => c = '%')).reverse

/-- Shallow embedding of `_apply_update(current, update_value)` from
`tools/parameters.py`.  `current` is the value currently held under the key
(`component.parameters.get(key)`), `none` when the key is absent; the update
is an absolute number, a percentage string ending in `%`, a signed delta
string, or a plain numeric string.  Multiplying or adding a float to a
string current value raises `TypeError`; a failing `float()` parse raises
`ValueError`; both are generic exceptions (`PyRaise.exc`). -/
def applyUpdate (current : Option PVal) (updateValue : PVal) : Except PyRaise Rat :=
  match updateValue with
  | .num x => .ok x
  | .txt sv =>
    if sv.getLast? = some '%' then
      match current with
      | none => .error (.mcp (str "UpdateError") (str "Cannot apply percentage to unknown value"))
      | some cur =>
        match parseFloat? (rstripPercent sv) with
        | none => .error (.exc (str "ValueError"))
        | some d =>
          match cur with
          | .num c => .ok (c * (1 + d / 100))
          | .txt _ => .error (.exc (str "TypeError"))
    else if sv.head? = some '+' ∨ sv.head? = some '-' then
      match current with
      | none => .error (.mcp (str "UpdateError") (str "Cannot apply relative change to unknown value"))
      | some cur =>
        match parseFloat? sv with
        | none => .error (.exc (str "ValueError"))
        | some d =>
          match cur with
          | .num c => .ok (c + d)
          | .txt _ => .error (.exc (str "TypeError"))
    else
      match parseFloat? sv with
      | none => .error (.exc (str "ValueError"))
      | some d => .ok d

/-- Decidable equality for `Except`, so closed runs can be settled by
`decide`. -/
instance {ε α : Type} [DecidableEq ε] [DecidableEq α] : DecidableEq (Except ε α) := fun x y =>
  match x, y with
  | .ok u, .ok v =>
    if h : u = v then .isTrue (by rw [h]) else .isFalse (by simp [h])
  | .ok _, .error _ => .isFalse (by simp)
  | .error _, .ok _ => .isFalse (by simp)
  | .error u, .error v =>
    if h : u = v then .isTrue (by rw [h]) else .isFalse (by simp [h])

/-! ## Configuration model (cpacs.py) -/

/-- Axis-aligned bounding box (`BoundingBox`, cpacs.py). -/
structure BoundingBox where
  xmin : Rat
  xmax : Rat
  ymin : Rat
  ymax : Rat
  zmin : Rat
  zmax : Rat
deriving DecidableEq, Repr

/-- `BoundingBox.from_index`: a simple box derived from a 1-based index. -/
def BoundingBox.fromIndex (index : Nat) : BoundingBox :=
  let base : Rat := (index : Nat)
  { xmin := base
    xmax := base + 1
    ymin := -base
    ymax := base + (1 / 2)
    zmin := -(1 / 4) * (base + 1)
    zmax := (1 / 4) * (base + 1) }

/-- `BoundingBox.combine`: componentwise envelope; the empty collection
yields the degenerate zero box. -/
def BoundingBox.combine (boxes : List BoundingBox) : BoundingBox :=
  match boxes with
  | [] => ⟨0, 0, 0, 0, 0, 0⟩
  | b :: rest =>
    { xmin := (rest.map (·.xmin)).foldl min b.xmin
      xmax := (rest.map (·.xmax)).foldl max b.xmax
      ymin := (rest.map (·.ymin)).foldl min b.ymin
      ymax := (rest.map (·.ymax)).foldl max b.ymax
      zmin := (rest.map (·.zmin)).foldl min b.zmin
      zmax := (rest.map (·.zmax)).foldl max b.zmax }

/-- `ComponentDefinition` (cpacs.py): one parsed CPACS component. -/
structure ComponentDefinition where
  uid : Str
  name : Str
  index : Nat
  type_name : Str
  symmetry : Option Str
  parameters : List (Str × PVal)
  bounding_box : BoundingBox
deriving DecidableEq, Repr

/-- `CPACSConfiguration` (cpacs.py): the four per-category component lists,
in discovery order. -/
structure CPACSConfiguration where
  wings : List ComponentDefinition
  fuselages : List ComponentDefinition
  rotors : List ComponentDefinition
  engines : List ComponentDefinition
deriving DecidableEq, Repr

/-- `CPACSConfiguration.all_components`: wings, fuselages, rotors, engines
concatenated in that order. -/
def CPACSConfiguration.allComponents (c : CPACSConfiguration) : List ComponentDefinition :=
  c.wings ++ c.fuselages ++ c.rotors ++ c.engines

/-- `CPACSConfiguration.bounding_box`: envelope over all components. -/
def CPACSConfiguration.boundingBox (c : CPACSConfiguration) : BoundingBox :=
  BoundingBox.combine (c.allComponents.map (·.bounding_box))

/-- `CPACSConfiguration.find_component`: first component whose uid matches,
scanning wings, then fuselages, rotors, engines. -/
def CPACSConfiguration.findComponent (c : CPACSConfiguration) (uid : Str) :
    Option ComponentDefinition :=
  c.allComponents.find? (fun comp => comp.uid = uid)

/-! ## XML parsing (cpacs.py `_parse_components` / `parse_cpacs`)

The spec treats XML attribute extraction as external; the model abstracts a
source document as, per category tag, the list of matched elements in
document order (`root.findall(".//tag")`), each element being its attribute
map in document order. -/

/-- One XML element: its attributes in document order (attribute names are
unique within an element). -/
structure XmlElement where
  attrs : List (Str × Str)
deriving DecidableEq, Repr

/-- A CPACS document abstracted as the per-tag `findall` results. -/
structure ParsedXml where
  wingElems : List XmlElement
  fuselageElems : List XmlElement
  rotorElems : List XmlElement
  engineElems : List XmlElement
deriving DecidableEq, Repr

/-- Render a `Nat` in decimal, for `f"{tag}_{index}"` defaults. -/
def natToStr (n : Nat) : Str := (toString n).data

/-- Python `tag.capitalize()` (first character upper, rest lower). -/
def capitalize (s : Str) : Str :=
  match s with
  | [] => []
  | c :: t => c.toUpper :: t.map Char.toLower

/-- Attribute names `_parse_components` excludes from the parameter map. -/
def reservedAttrNames : List Str := [str "uid", str "uID", str "name", str "symmetry"]

/-- Parameter map of one element: `tigl_uid` first when the `uID` attribute
is non-empty, then every other non-reserved attribute whose raw value parses
as a float (`ValueError` skips the attribute). -/
def elementParameters (e : XmlElement) : List (Str × PVal) :=
  let withTiglUid : List (Str × PVal) :=
    match dictGet e.attrs (str "uID") with
    | some u => if u ≠ [] then [(str "tigl_uid", PVal.txt u)] else []
    | none => []
  e.attrs.foldl
    (fun acc kv =>
      if kv.1 ∈ reservedAttrNames then acc
      else
        match parseFloat? kv.2 with
        | some x => dictSet acc kv.1 (PVal.num x)
        | none => acc)
    withTiglUid

/-- Build the component for one element at 1-based position `index`
(the body of the loop in `_parse_components`).  Python's
`element.get("uid") or default` treats the empty string as missing. -/
def parseOneComponent (tag : Str) (index : Nat) (e : XmlElement) : ComponentDefinition :=
  let uid :=
    match dictGet e.attrs (str "uid") with
    | some u => if u = [] then tag ++ str "_" ++ natToStr index else u
    | none => tag ++ str "_" ++ natToStr index
  let name :=
    match dictGet e.attrs (str "name") with
    | some n => if n = [] then uid else n
    | none => uid
  { uid := uid
    name := name
    index := index
    type_name := capitalize tag
    symmetry := dictGet e.attrs (str "symmetry")
    parameters := elementParameters e
    bounding_box := BoundingBox.fromIndex index }

/-- `_parse_components(root, tag)`: enumerate the tag's elements from 1. -/
def parseComponents (elems : List XmlElement) (tag : Str) : List ComponentDefinition :=
  (List.range elems.length).zip elems |>.map (fun p => parseOneComponent tag (p.1 + 1) p.2)

/-- `parse_cpacs(xml_content)`: parse the four component categories. -/
def parseCpacs (doc : ParsedXml) : CPACSConfiguration :=
  { wings := parseComponents doc.wingElems (str "wing")
    fuselages := parseComponents doc.fuselageElems (str "fuselage")
    rotors := parseComponents doc.rotorElems (str "rotor")
    engines := parseComponents doc.engineElems (str "engine") }

/-! ## Session manager (session_manager.py) -/

/-- External handle object (a TiXI document or TiGL configuration handle).
Only what the session manager and the CAD-export tool observe is modelled:
which close-like method names are callable and whether calling one raises
(`methods` maps a callable method name to `true` when invoking it raises an
exception), plus the `xml_content` attribute read by the CAD export tool
(empty when absent, matching `getattr(.., "xml_content", "") or ""`). -/
structure Handle where
  methods : List (Str × Bool)
  xml_content : Str
deriving DecidableEq, Repr

/-- `SessionData` (session_manager.py): payload stored per session. -/
structure SessionData where
  session_id : Str
  tixi_handle : Handle
  tigl_handle : Handle
  config : CPACSConfiguration
deriving DecidableEq, Repr

/-- The session registry's internal dict `_sessions`. -/
abbrev Registry := List (Str × SessionData)

/-- Message of the InvalidSession error for an unknown session id. -/
def unknownSessionMsg (sid : Str) : Str :=
  str "Unknown session_id '" ++ sid ++ str "'"

/-- `SessionManager.get`: lookup, raising InvalidSession when absent. -/
def smGet (r : Registry) (sid : Str) : Except PyRaise SessionData :=
  match dictGet r sid with
  | none => .error (.mcp (str "InvalidSession") (unknownSessionMsg sid))
  | some d => .ok d

/-- The method names `close` tries on the TiGL handle. -/
def tiglCloseNames : List Str :=
  [str "close", str "closeConfiguration", str "close_configuration"]

/-- The method names `close` tries on the TiXI handle. -/
def tixiCloseNames : List Str :=
  [str "closeDocument", str "close_document", str "close"]

/-- `_best_effort_close(obj, method_names)`: walk the candidate names, call
the first callable one, swallow any exception it raises, and stop.  The
result records which method was invoked and whether it raised (`none` when
no candidate was callable); no exception ever escapes. -/
def bestEffortClose (h : Handle) (names : List Str) : Option (Str × Bool) :=
  match names with
  | [] => none
  | n :: rest =>
    match dictGet h.methods n with
    | some raised => some (n, raised)
    | none => bestEffortClose h rest

/-- Release attempts performed while closing one session. -/
structure CloseEvents where
  tiglRelease : Option (Str × Bool)
  tixiRelease : Option (Str × Bool)
deriving DecidableEq, Repr

/-- `SessionManager.close`: InvalidSession when the token is unknown;
otherwise best-effort release of the TiGL then the TiXI handle (each
isolated, failures swallowed) followed by removal of the entry. -/
def smClose (r : Registry) (sid : Str) : Except PyRaise (CloseEvents × Registry) :=
  match dictGet r sid with
  | none => .error (.mcp (str "InvalidSession") (unknownSessionMsg sid))
  | some d =>
    let e1 := bestEffortClose d.tigl_handle tiglCloseNames
    let e2 := bestEffortClose d.tixi_handle tixiCloseNames
    .ok (⟨e1, e2⟩, dictDel r sid)

/-! ## MCP server tool catalog (tigl_mcp/server.py) -/

/-- What the catalog stores per tool: `ToolDefinition`'s discovery metadata
(name, description, and the JSON schema of its parameters model, the latter
abstracted as an opaque string). -/
structure ToolDefn where
  name : Str
  description : Str
  schema : Str
deriving DecidableEq, Repr

/-- The server's `_tools` dict. -/
abbrev ServerTools := List (Str × ToolDefn)

/-- Message of the `ValueError` raised on duplicate registration. -/
def alreadyRegisteredMsg (n : Str) : Str :=
  str "Tool '" ++ n ++ str "' is already registered"

/-- `MCPServer.register_tool`: raise `ValueError` when the name is taken
(leaving `_tools` untouched), otherwise add the tool under its name.  The
pair returns the resulting catalog state and the raised exception, if any. -/
def registerTool (st : ServerTools) (t : ToolDefn) : ServerTools × Option PyRaise :=
  match dictGet st t.name with
  | some _ => (st, some (.exc (alreadyRegisteredMsg t.name)))
  | none => (dictSet st t.name t, none)

/-- `ToolDefinition.metadata()`: the discovery entry for one tool. -/
structure CatalogEntry where
  name : Str
  description : Str
  schema : Str
deriving DecidableEq, Repr

/-- `MCPServer.to_catalog`: metadata for every registered tool. -/
def toCatalog (st : ServerTools) : List (Str × CatalogEntry) :=
  st.map (fun p => (p.1, ⟨p.2.name, p.2.description, p.2.schema⟩))

/-! ## Session resolution inside tool handlers -/

/-- `require_session` (tools/common.py): returns `session_manager.get(...)`
unchanged — that is, the stored `SessionData` record, although the
function's own annotation promises a `(tixi, tigl, config)` triple.  An
`MCPError` from `get` (InvalidSession) is re-raised unchanged; no other
exception arises inside it. -/
def requireSession (r : Registry) (sid : Str) : Except PyRaise SessionData :=
  smGet r sid

/-- Every session-scoped handler binds
`_, _, config = require_session(...)` (or the equivalent three-name
pattern).  `SessionData` is a plain dataclass without `__iter__`, so this
tuple unpacking raises `TypeError: cannot unpack non-iterable SessionData
object` on every live session — the triple is never produced.  The `.ok`
branch of this embedding is therefore unreachable; it exists so that each
handler's downstream code stays embedded as written in the source. -/
def unpack3 (_d : SessionData) : Except PyRaise (Handle × Handle × CPACSConfiguration) :=
  .error (.exc (str "cannot unpack non-iterable SessionData object"))

/-- NotFound message for a missing component uid. -/
def componentNotFoundMsg (uid : Str) : Str :=
  str "Component '" ++ uid ++ str "' not found"

/-! ## Parameter update tool (tools/parameters.py) -/

/-- Warning text `f"Skipped '{key}': {exc}"`. -/
def skippedMsg (key msg : Str) : Str :=
  str "Skipped '" ++ key ++ str "': " ++ msg

/-- The update loop of `set_high_level_parameters_tool`'s handler: for each
`(key, value)` pair in request order, read the current value, apply the
update and store it; an `MCPError` re-raises immediately (aborting the
batch, keeping the parameter map mutated so far), while any other exception
appends a `Skipped` warning and moves on.  Returns the outcome, the
component's parameter map after the loop, and the collected warnings. -/
def runSetUpdates (params : List (Str × PVal)) (updates : List (Str × PVal))
    (warnings : List Str) : Except PyRaise Unit × List (Str × PVal) × List Str :=
  match updates with
  | [] => (.ok (), params, warnings)
  | (key, value) :: rest =>
    match applyUpdate (dictGet params key) value with
    | .ok x => runSetUpdates (dictSet params key (PVal.num x)) rest warnings
    | .error (.mcp t m) => (.error (.mcp t m), params, warnings)
    | .error (.exc m) => runSetUpdates params rest (warnings ++ [skippedMsg key m])

/-- Replace the parameter map of the first component with the given uid. -/
def setFirstParams (cs : List ComponentDefinition) (uid : Str)
    (ps : List (Str × PVal)) : List ComponentDefinition × Bool :=
  match cs with
  | [] => ([], false)
  | c :: t =>
    if c.uid = uid then ({ c with parameters := ps } :: t, true)
    else
      let p := setFirstParams t uid ps
      (c :: p.1, p.2)

/-- Write the (in-place mutated) parameter map of the component found by
`find_component` back into the configuration: the first uid match in wings,
fuselages, rotors, engines order is updated. -/
def writeBackParams (c : CPACSConfiguration) (uid : Str) (ps : List (Str × PVal)) :
    CPACSConfiguration :=
  let w := setFirstParams c.wings uid ps
  if w.2 then { c with wings := w.1 }
  else
    let f := setFirstParams c.fuselages uid ps
    if f.2 then { c with fuselages := f.1 }
    else
      let ro := setFirstParams c.rotors uid ps
      if ro.2 then { c with rotors := ro.1 }
      else
        let en := setFirstParams c.engines uid ps
        if en.2 then { c with engines := en.1 } else c

/-- Result payload of `set_high_level_parameters`. -/
structure SetParamsResult where
  component_uid : Str
  new_parameters : List (Str × PVal)
  warnings : List Str
deriving DecidableEq, Repr

/-- Store the possibly-mutated session configuration back in the registry
(Python mutates the shared `SessionData.config` object in place). -/
def updateRegistryConfig (r : Registry) (sid : Str) (c : CPACSConfiguration) : Registry :=
  r.map (fun p => if p.1 = sid then (p.1, { p.2 with config := c }) else p)

/-- Handler of `set_high_level_parameters_tool`: resolve the session
(an `MCPError` such as InvalidSession is re-raised unchanged), then unpack
the `SessionData` as a 3-tuple — which raises `TypeError` on every live
session, wrapped by the generic `except Exception` arm as
`ParameterError "Failed to apply parameter updates"` before any update is
attempted.  The unreachable continuation (find the component, run the
update loop in place, return the new map plus warnings) is embedded as
written. -/
def setHighLevelParameters (r : Registry) (sid uid : Str)
    (updates : List (Str × PVal)) : Except PyRaise SetParamsResult × Registry :=
  match requireSession r sid with
  | .error e => (.error e, r)
  | .ok d =>
    match unpack3 d with
    | .error _ =>
      (.error (.mcp (str "ParameterError") (str "Failed to apply parameter updates")), r)
    | .ok (_, _, config) =>
      match config.findComponent uid with
      | none => (.error (.mcp (str "NotFound") (componentNotFoundMsg uid)), r)
      | some comp =>
        let run := runSetUpdates comp.parameters updates []
        let r' := updateRegistryConfig r sid (writeBackParams config comp.uid run.2.1)
        match run.1 with
        | .error e => (.error e, r')
        | .ok () => (.ok ⟨comp.uid, run.2.1, run.2.2⟩, r')

/-! ## Component listing tool (tools/configuration.py) -/

/-- One entry of `list_geometric_components`' response, after the handler
pops `parameters`, `symmetry` and `bounding_box` from each dict. -/
structure ListEntry where
  uid : Str
  name : Str
  index : Nat
  type_name : Str
  parent_uid : Option Str
  label : Str
deriving DecidableEq, Repr

/-- Projection of `_component_to_dict` onto the fields that survive the
pops at the end of the handler. -/
def componentToEntry (c : ComponentDefinition) : ListEntry :=
  ⟨c.uid, c.name, c.index, c.type_name, none, c.name⟩

/-- Python `s.lower()`. -/
def lowerStr (s : Str) : Str := s.map Char.toLower

/-- Handler of `list_geometric_components_tool`: resolve the session
(an `MCPError` such as InvalidSession is re-raised unchanged), then unpack
the `SessionData` as a 3-tuple — which raises `TypeError` on every live
session, wrapped by the generic arm as
`ListError "Failed to list components"`.  The unreachable continuation
(one entry per component in `all_components` order, optionally filtered by
type case-insensitively) is embedded as written. -/
def listGeometricComponents (r : Registry) (sid : Str) (typeFilter : Option Str) :
    Except PyRaise (List ListEntry) :=
  match requireSession r sid with
  | .error e => .error e
  | .ok d =>
    match unpack3 d with
    | .error _ => .error (.mcp (str "ListError") (str "Failed to list components"))
    | .ok (_, _, config) =>
      let entries := config.allComponents.map componentToEntry
      match typeFilter with
      | none => .ok entries
      | some tf =>
        if tf = [] then .ok entries
        else .ok (entries.filter (fun e => lowerStr e.type_name = lowerStr tf))

/-! ## Mesh export (tools/export.py)

The real TiGL STL route (`_export_stl_bytes_via_tigl3`) and the meshio
conversion enumerate methods of foreign objects and go through temp files;
both are external-engine interaction outside the spec's scope, so each is an
oracle: the STL route either yields bytes or raises (an `MCPError` when the
route itself exhausts its candidates, a generic exception otherwise), and
the meshio conversion either yields SU2 bytes or raises.  Handlers also
return a log of which oracle calls were made, so that "no engine call" is an
observable fact. -/

/-- Oracle for the session's TiGL handle as the mesh-export tool uses it. -/
structure MeshEngine where
  stlRoute : ComponentDefinition → Except PyRaise Bytes
  meshioConvert : Bytes → Except Str Bytes

/-- The recognized mesh formats (`MeshFormat` literal in export.py). -/
def recognizedMeshFormats : List Str := [str "stl", str "vtk", str "collada", str "su2"]

/-- Message of `_raise_unsupported_format(mesh_format, component_uid)`. -/
def unsupportedFormatMsg (fmt uid : Str) : Str :=
  str "Mesh export failed: format '" ++ fmt ++ str "' not supported for component " ++ uid
    ++ str "."

/-- `_ensure_export_supported`: formats in the recognized set pass, anything
else raises the standardized unsupported-format `MeshExportError`. -/
def ensureExportSupported (fmt uid : Str) : Except PyRaise Unit :=
  if recognizedMeshFormats.contains fmt then .ok ()
  else .error (.mcp (str "MeshExportError") (unsupportedFormatMsg fmt uid))

/-- Python `bytes.decode("ascii")`: every byte must be below 128. -/
def asciiDecode? (b : Bytes) : Option Str :=
  if b.all (fun n => n < 128) then some (b.map (fun n => Char.ofNat n)) else none

/-- `_looks_like_handle`: an ASCII payload starting with `mesh:` or
`su2-from-stl:` is a legacy handle masquerading as mesh bytes; payloads that
do not decode as ASCII are not handles. -/
def looksLikeHandle (b : Bytes) : Bool :=
  match asciiDecode? b with
  | none => false
  | some cs => (str "mesh:").isPrefixOf cs || (str "su2-from-stl:").isPrefixOf cs

/-- Whether `pat` occurs as a contiguous run inside `hay` (Python `in` on
byte strings). -/
def bytesContain (hay pat : Bytes) : Bool :=
  match hay with
  | [] => pat.isEmpty
  | c :: t => pat.isPrefixOf (c :: t) || bytesContain t pat

/-- The SU2 marker sequence `b"NDIME="`. -/
def ndimeBytes : Bytes := strBytes (str "NDIME=")

/-- Message for an invalid SU2 conversion result. -/
def su2InvalidMsg (uid : Str) : Str :=
  str "Conversion to SU2 failed or output invalid for '" ++ uid ++ str "'"

/-- `_validate_mesh_bytes`: reject empty payloads and handle-like payloads
with the unsupported-format error; additionally require the `NDIME=` marker
for SU2; otherwise pass the bytes through. -/
def validateMeshBytes (b : Bytes) (fmt : Str) (comp : ComponentDefinition) :
    Except PyRaise Bytes :=
  if b.length = 0 then .error (.mcp (str "MeshExportError") (unsupportedFormatMsg fmt comp.uid))
  else if looksLikeHandle b then
    .error (.mcp (str "MeshExportError") (unsupportedFormatMsg fmt comp.uid))
  else if fmt = str "su2" && !(bytesContain b ndimeBytes) then
    .error (.mcp (str "MeshExportError") (su2InvalidMsg comp.uid))
  else .ok b

/-- `_synthetic_mesh_bytes`: deterministic format-like payloads for STL, VTK
and COLLADA; other formats raise the unsupported-format error. -/
def syntheticMeshBytes (fmt : Str) (comp : ComponentDefinition) : Except PyRaise Bytes :=
  if fmt = str "stl" then
    .ok (strBytes (str "solid " ++ comp.uid ++
      str "\n  facet normal 0 0 0\n    outer loop\n      vertex 0 0 0\n      vertex 0 1 0\n      vertex 1 0 0\n    endloop\n  endfacet\nendsolid "
      ++ comp.uid ++ str "\n"))
  else if fmt = str "vtk" then
    .ok (strBytes (str "# vtk DataFile Version 3.0\ncomponent " ++ comp.uid ++
      str "\nASCII\nDATASET POLYDATA\nPOINTS 0 float\n"))
  else if fmt = str "collada" then
    .ok (strBytes (str "<?xml version=\"1.0\" encoding=\"UTF-8\"?><COLLADA><asset/><library_geometries><geometry id=\""
      ++ comp.uid ++ str "\" name=\"" ++ comp.uid ++ str "\"/></library_geometries></COLLADA>"))
  else .error (.mcp (str "MeshExportError") (unsupportedFormatMsg fmt comp.uid))

/-- Error raised by `_export_real_stl_bytes` when no route produced a large
enough STL (diagnostic details elided). -/
def noStlRouteErr : PyRaise :=
  .mcp (str "MeshExportError") (str "No working STL export route found.")

/-- `_export_real_stl_bytes`: call the TiGL STL route; accept its bytes when
at least 2048 bytes long, otherwise (too small, or any exception — the
`except Exception` catch swallows even `MCPError`s into the diagnostics)
raise the no-route `MeshExportError`.  The second component logs the oracle
calls made. -/
def exportRealStlBytes (eng : MeshEngine) (comp : ComponentDefinition) :
    Except PyRaise Bytes × List Str :=
  match eng.stlRoute comp with
  | .ok b => if 2048 ≤ b.length then (.ok b, [str "tigl_stl"]) else (.error noStlRouteErr, [str "tigl_stl"])
  | .error _ => (.error noStlRouteErr, [str "tigl_stl"])

/-- `_export_su2_via_tigl`: obtain STL bytes from the TiGL route (`MCPError`
re-raised, other exceptions wrapped), reject an empty STL, convert with
meshio (exceptions wrapped), and reject an empty or marker-less SU2
output. -/
def exportSu2ViaTigl (eng : MeshEngine) (comp : ComponentDefinition) :
    Except PyRaise Bytes × List Str :=
  match eng.stlRoute comp with
  | .error (.mcp t m) => (.error (.mcp t m), [str "tigl_stl"])
  | .error (.exc _) =>
    (.error (.mcp (str "MeshExportError")
      (str "Failed to export STL mesh for '" ++ comp.uid ++ str "' via TiGL")), [str "tigl_stl"])
  | .ok stl =>
    if stl = [] then
      (.error (.mcp (str "MeshExportError")
        (str "TiGL returned empty STL mesh for '" ++ comp.uid ++ str "'")), [str "tigl_stl"])
    else
      match eng.meshioConvert stl with
      | .error _ =>
        (.error (.mcp (str "MeshExportError")
          (str "Failed to export SU2 mesh for '" ++ comp.uid ++ str "' via meshio")),
         [str "tigl_stl", str "meshio"])
      | .ok su2 =>
        if su2 = [] || !(bytesContain su2 ndimeBytes) then
          (.error (.mcp (str "MeshExportError") (su2InvalidMsg comp.uid)),
           [str "tigl_stl", str "meshio"])
        else (.ok su2, [str "tigl_stl", str "meshio"])

/-- `_export_mesh_bytes`: SU2 goes through the STL+meshio chain, STL through
the real TiGL route, and the remaining recognized formats are synthesized
without touching the engine. -/
def exportMeshBytes (eng : MeshEngine) (comp : ComponentDefinition) (fmt : Str) :
    Except PyRaise Bytes × List Str :=
  if fmt = str "su2" then exportSu2ViaTigl eng comp
  else if fmt = str "stl" then exportRealStlBytes eng comp
  else (syntheticMeshBytes fmt comp, [])

/-- Result payload of `export_component_mesh` (the wire response carries
`mesh_payload` base64-encoded; the encoding is a bijection and elided). -/
structure MeshResult where
  format : Str
  mesh_payload : Bytes
  num_triangles : Nat
  bounding_box : BoundingBox
deriving DecidableEq, Repr

/-- Component resolution in the mesh-export handler: `find_component` by
uid first, then the fallback matching a component whose `tigl_uid`
parameter equals the requested uid. -/
def resolveComponent (config : CPACSConfiguration) (uid : Str) : Option ComponentDefinition :=
  match config.findComponent uid with
  | some c => some c
  | none =>
    config.allComponents.find?
      (fun c => dictGet c.parameters (str "tigl_uid") = some (.txt uid))

/-- Handler of `export_component_mesh_tool`.  Pydantic validates the raw
parameters against `ExportMeshParams` first; a format outside the
`MeshFormat` literal raises a `ValidationError` that the handler's
`except Exception` arm wraps as `MeshExportError "Failed to export component
mesh"` — before the session is even resolved.  Then the session is
resolved (an `MCPError` re-raised unchanged) and the `SessionData` is
unpacked as a 3-tuple — which raises `TypeError` on every live session,
wrapped by the same generic arm as the same
`MeshExportError "Failed to export component mesh"`.  The unreachable
continuation (component resolution with the `tigl_uid` fallback, format
gate, byte production, validation, response assembly) is embedded as
written.  The triple also returns the engine-call log and the (never
modified) registry. -/
def exportComponentMesh (r : Registry) (sid uid fmt : Str) (eng : MeshEngine) :
    Except PyRaise MeshResult × List Str × Registry :=
  if !(recognizedMeshFormats.contains fmt) then
    (.error (.mcp (str "MeshExportError") (str "Failed to export component mesh")), [], r)
  else
    match requireSession r sid with
    | .error e => (.error e, [], r)
    | .ok d =>
      match unpack3 d with
      | .error _ =>
        (.error (.mcp (str "MeshExportError") (str "Failed to export component mesh")), [], r)
      | .ok (_, _, config) =>
        match resolveComponent config uid with
        | none => (.error (.mcp (str "NotFound") (componentNotFoundMsg uid)), [], r)
        | some comp =>
          match ensureExportSupported fmt uid with
          | .error e => (.error e, [], r)
          | .ok () =>
            match exportMeshBytes eng comp fmt with
            | (.error e, log) => (.error e, log, r)
            | (.ok bytes, log) =>
              match validateMeshBytes bytes fmt comp with
              | .error e => (.error e, log, r)
              | .ok vb => (.ok ⟨fmt, vb, 12 * comp.index, comp.bounding_box⟩, log, r)

/-! ## Whole-configuration CAD export (tools/export.py) -/

/-- Outcome of invoking one export method of the TiGL handle with the output
path: it writes the file's bytes (an empty list meaning no or empty file),
raises `TypeError` (wrong arity), or raises some other exception.  Each call
is modelled atomically. -/
inductive CallOutcome where
  | writes (b : Bytes)
  | raisesTypeError
  | raisesOther (msg : Str)
deriving DecidableEq, Repr

/-- Oracle for the TiGL handle as the CAD-export tool probes it: `methods`
maps each callable export-method name to the outcome of the one-argument
call, `retryMethods` to the outcome of the `fn(path, True)` retry attempted
after a `TypeError` (a name missing there also raises). -/
structure CadEngine where
  methods : List (Str × CallOutcome)
  retryMethods : List (Str × CallOutcome)
deriving DecidableEq, Repr

/-- Explicit STEP candidates tried first. -/
def stepCandidates : List Str :=
  [str "exportFusedSTEP", str "exportSTEP", str "exportFusedStep", str "exportStep"]

/-- Explicit IGES candidates tried first. -/
def igesCandidates : List Str :=
  [str "exportFusedIGES", str "exportIGES", str "exportFusedIges", str "exportIges"]

/-- Fallback names for which the format is inferred from the extension. -/
def fallbackCandidates : List Str :=
  [str "exportConfiguration", str "exportconfiguration", str "export"]

/-- One candidate of the explicit branch: skipped when not callable; a
successful call wins when it wrote a non-empty file; a `TypeError` triggers
the two-argument retry; any other exception is recorded and skipped. -/
def runCadCall1 (eng : CadEngine) (n : Str) : Option Bytes :=
  match dictGet eng.methods n with
  | none => none
  | some (.writes b) => if b ≠ [] then some b else none
  | some (.raisesOther _) => none
  | some .raisesTypeError =>
    match (dictGet eng.retryMethods n).getD (.raisesOther (str "TypeError")) with
    | .writes b => if b ≠ [] then some b else none
    | _ => none

/-- One candidate of the fallback branch (no `TypeError` retry there). -/
def runCadCall2 (eng : CadEngine) (n : Str) : Option Bytes :=
  match dictGet eng.methods n with
  | some (.writes b) => if b ≠ [] then some b else none
  | _ => none

/-- First candidate producing output wins. -/
def firstOutput (names : List Str) (f : Str → Option Bytes) : Option Bytes :=
  match names with
  | [] => none
  | n :: rest =>
    match f n with
    | some b => some b
    | none => firstOutput rest f

/-- Python `s.upper()`. -/
def upperStr (s : Str) : Str := s.map Char.toUpper

/-- `_export_configuration_cad_bytes_via_tigl`: try the format's explicit
method names, then the extension-inferred fallbacks; the first call that
leaves a non-empty output file wins; exhaustion raises `CadExportError`
(diagnostic details elided). -/
def cadBytesViaTigl (eng : CadEngine) (fmt : Str) : Except PyRaise Bytes :=
  let candidates := if fmt = str "step" then stepCandidates else igesCandidates
  match firstOutput candidates (runCadCall1 eng) with
  | some b => .ok b
  | none =>
    match firstOutput fallbackCandidates (runCadCall2 eng) with
    | some b => .ok b
    | none =>
      .error (.mcp (str "CadExportError")
        (str "TiGL could not export " ++ upperStr fmt ++ str " CAD."))

/-- The names whose presence makes the handler treat the engine as
export-capable. -/
def probeNames : List Str :=
  [str "exportFusedSTEP", str "exportSTEP", str "exportConfiguration", str "export"]

/-- The handler's capability probe over the TiGL handle. -/
def exportCapable (eng : CadEngine) : Bool :=
  probeNames.any (fun n => (dictGet eng.methods n).isSome)

/-- The accepted CAD formats (`ExportCadParams` literal). -/
def cadFormats : List Str := [str "step", str "iges"]

/-- Result payload of `export_configuration_cad` (base64 encodings of the
payload and the CPACS XML are elided). -/
structure CadResult where
  format : Str
  cad_payload : Bytes
  source : Str
  cpacs_xml : Str
deriving DecidableEq, Repr

/-- The deterministic stub payload `f"cad:{format}:{cpacs_xml}"`. -/
def stubCadPayload (fmt xml : Str) : Bytes :=
  strBytes (str "cad:" ++ fmt ++ str ":" ++ xml)

/-- Handler of `export_configuration_cad_tool`: validate the raw format
against the `step`/`iges` literal (mismatch wrapped as `CadExportError
"Failed to export configuration"`), resolve the session (an `MCPError`
re-raised unchanged), then unpack the `SessionData` as a 3-tuple — which
raises `TypeError` on every live session, wrapped by the generic arm as
the same `CadExportError "Failed to export configuration"`.  The
unreachable continuation (read the TiXI handle's `xml_content`, probe the
TiGL handle's capability, export through the engine tagging
`source = "tigl"` or substitute the deterministic stub payload tagging
`source = "stub"`) is embedded as written.  The registry is returned
unchanged. -/
def exportConfigurationCad (r : Registry) (sid fmt : Str) (eng : CadEngine) :
    Except PyRaise CadResult × Registry :=
  if !(cadFormats.contains fmt) then
    (.error (.mcp (str "CadExportError") (str "Failed to export configuration")), r)
  else
    match requireSession r sid with
    | .error e => (.error e, r)
    | .ok d =>
      match unpack3 d with
      | .error _ =>
        (.error (.mcp (str "CadExportError") (str "Failed to export configuration")), r)
      | .ok (tixi, _, _) =>
        let xml := tixi.xml_content
        if exportCapable eng then
          match cadBytesViaTigl eng fmt with
          | .ok b => (.ok ⟨fmt, b, str "tigl", xml⟩, r)
          | .error e => (.error e, r)
        else (.ok ⟨fmt, stubCadPayload fmt xml, str "stub", xml⟩, r)

/-! ## Concrete fixtures used by closed witness runs -/

/-- A configuration with no components. -/
def emptyConfig : CPACSConfiguration := ⟨[], [], [], []⟩

/-- A handle with no close-like methods and no XML content. -/
def nullHandle : Handle := ⟨[], []⟩

/-- A handle whose `close` method is callable and raises when invoked. -/
def raisingHandle : Handle := ⟨[(str "close", true)], []⟩

/-- A sample session token. -/
def sid0 : Str := str "s0"

/-- A quiet session (both handles close cleanly, empty configuration). -/
def sess0 : SessionData := ⟨sid0, nullHandle, nullHandle, emptyConfig⟩

/-- A session whose TiGL handle raises on close. -/
def sessRaise : SessionData := ⟨sid0, nullHandle, raisingHandle, emptyConfig⟩

/-- A sample wing component with no parameters yet. -/
def compW1 : ComponentDefinition :=
  ⟨str "W1", str "MainWing", 1, str "Wing", none, [], ⟨1, 2, 3, 4, 5, 6⟩⟩

/-- A configuration holding just the sample wing. -/
def configW1 : CPACSConfiguration := ⟨[compW1], [], [], []⟩

/-- A session around `configW1`. -/
def sessW1 : SessionData := ⟨sid0, nullHandle, nullHandle, configW1⟩

/-- A document that defines the uid `W1` twice in the wings category. -/
def dupDoc : ParsedXml :=
  ⟨[⟨[(str "uid", str "W1")]⟩, ⟨[(str "uid", str "W1")]⟩], [], [], []⟩

/-- A session holding the parse of `dupDoc`. -/
def sessDup : SessionData := ⟨sid0, nullHandle, nullHandle, parseCpacs dupDoc⟩

/-- A mesh engine with no working routes. -/
def engNone : MeshEngine :=
  ⟨fun _ => .error (.exc (str "no tigl")), fun _ => .error (str "no meshio")⟩

/-- A sample tool definition. -/
def tool0 : ToolDefn := ⟨str "dummy", str "placeholder", str "schema0"⟩

/-- A session whose TiXI handle carries CPACS XML content. -/
def sessC : SessionData := ⟨sid0, ⟨[], str "<cpacs/>"⟩, nullHandle, emptyConfig⟩

/-- A CAD engine whose `exportFusedSTEP` writes one byte of output. -/
def cadEngStep : CadEngine := ⟨[(str "exportFusedSTEP", .writes [42])], []⟩

/-- A CAD engine exposing no export-like methods at all. -/
def cadEngEmpty : CadEngine := ⟨[], []⟩

/-- A mesh engine whose STL route works and returns a large payload. -/
def engGood : MeshEngine :=
  ⟨fun _ => .ok (List.replicate 2048 115), fun b => .ok b⟩

/-! ## Helper lemmas -/

theorem dictGet_dictDel {α : Type} (m : List (Str × α)) (k : Str) :
    dictGet (dictDel m k) k = none := by
  induction m with
  | nil => rfl
  | cons kv rest ih =>
    by_cases h : kv.1 = k
    · simpa [dictDel, h] using ih
    · simpa [dictDel, dictGet, h] using ih

theorem dictSet_absent {α : Type} (m : List (Str × α)) (k : Str) (v : α)
    (h : dictGet m k = none) : dictSet m k v = m ++ [(k, v)] := by
  induction m with
  | nil => rfl
  | cons kv rest ih =>
    by_cases hk : kv.1 = k
    · simp [dictGet, hk] at h
    · cases kv with
      | mk k' v' =>
        simp only [dictGet] at h
        rw [if_neg hk] at h
        simp [dictSet, hk, ih h]

theorem find_first_split {α : Type} (p : α → Bool) :
    ∀ (l : List α) (a : α), l.find? p = some a →
      p a = true ∧ ∃ l₁ l₂, l = l₁ ++ a :: l₂ ∧ ∀ x ∈ l₁, p x = false := by
  intro l
  induction l with
  | nil => intro a h; cases h
  | cons c t ih =>
    intro a h
    by_cases hc : p c = true
    · rw [List.find?_cons_of_pos _ hc] at h
      cases h
      exact ⟨hc, [], t, rfl, by intro x hx; cases hx⟩
    · have hc' : p c = false := by
        cases hpc : p c
        · rfl
        · exact absurd hpc hc
      rw [List.find?_cons_of_neg _ (by simp [hc'])] at h
      obtain ⟨hpa, l₁, l₂, heq, hall⟩ := ih a h
      refine ⟨hpa, c :: l₁, l₂, by rw [heq]; rfl, ?_⟩
      intro x hx
      rcases List.mem_cons.mp hx with hx | hx
      · rw [hx]; exact hc'
      · exact hall x hx

/-! ## Claim theorems -/

/-- C1: for every session token successfully closed, a subsequent `get`
with that token fails with an InvalidSession error — and hence so does
`require_session` and any tool call resolving the session through it (shown
for the component-listing tool under every filter); `close` removed the
registry entry (the returned registry is the original with the token's
entry deleted) before returning. -/
theorem close_then_get_invalid (r : Registry) (sid : Str) (ev : CloseEvents) (r' : Registry)
    (h : smClose r sid = .ok (ev, r')) :
    r' = dictDel r sid ∧
    smGet r' sid = .error (.mcp (str "InvalidSession") (unknownSessionMsg sid)) ∧
    requireSession r' sid = .error (.mcp (str "InvalidSession") (unknownSessionMsg sid)) ∧
    ∀ tf, listGeometricComponents r' sid tf =
      .error (.mcp (str "InvalidSession") (unknownSessionMsg sid)) := by
  unfold smClose at h
  cases hd : dictGet r sid with
  | none => rw [hd] at h; cases h
  | some d =>
    rw [hd] at h
    have hr' : r' = dictDel r sid := by
      injection h with h1
      injection h1 with _ h2
      exact h2.symm
    subst hr'
    refine ⟨rfl, by simp [smGet, dictGet_dictDel], ?_, ?_⟩
    · simp [requireSession, smGet, dictGet_dictDel]
    · intro tf
      simp [listGeometricComponents, requireSession, smGet, dictGet_dictDel]

/-- C1 witness: closing the one-session registry makes `get`,
`require_session` and the listing tool on the same token fail
InvalidSession. -/
theorem close_then_get_invalid_witness :
    smGet ([] : Registry) sid0 =
      .error (.mcp (str "InvalidSession") (unknownSessionMsg sid0)) ∧
    requireSession ([] : Registry) sid0 =
      .error (.mcp (str "InvalidSession") (unknownSessionMsg sid0)) ∧
    listGeometricComponents ([] : Registry) sid0 none =
      .error (.mcp (str "InvalidSession") (unknownSessionMsg sid0)) :=
  ⟨(close_then_get_invalid [(sid0, sess0)] sid0 ⟨none, none⟩ [] (by decide)).2.1,
   (close_then_get_invalid [(sid0, sess0)] sid0 ⟨none, none⟩ [] (by decide)).2.2.1,
   (close_then_get_invalid [(sid0, sess0)] sid0 ⟨none, none⟩ [] (by decide)).2.2.2 none⟩

/-- C8: closing a live session always succeeds and removes the entry,
whatever the two handles' close methods do: the TiGL release attempt and
the TiXI release attempt are each recorded unconditionally (an exception in
one — a `true` outcome flag — neither prevents the other attempt nor the
removal), and no release failure is ever surfaced to the caller. -/
theorem close_best_effort (r : Registry) (sid : Str) (d : SessionData)
    (h : dictGet r sid = some d) :
    smClose r sid =
      .ok (⟨bestEffortClose d.tigl_handle tiglCloseNames,
            bestEffortClose d.tixi_handle tixiCloseNames⟩, dictDel r sid) := by
  simp [smClose, h]

/-- C8 witness: a session whose TiGL `close` raises still closes fine, the
raising release attempt is recorded, the other handle is still attempted
(no close-like method found there), and the entry is removed. -/
theorem close_best_effort_witness :
    smClose [(sid0, sessRaise)] sid0 = .ok (⟨some (str "close", true), none⟩, []) :=
  close_best_effort [(sid0, sessRaise)] sid0 sessRaise (by decide)

/-- C9: registering a tool under an already-taken name raises and leaves
the catalog state unchanged (the existing entry survives untouched), while
registering a fresh name appends exactly that tool — so the catalog holds
exactly the successfully registered tools. -/
theorem register_duplicate_rejected :
    (∀ (st : ServerTools) (t existing : ToolDefn), dictGet st t.name = some existing →
      registerTool st t = (st, some (.exc (alreadyRegisteredMsg t.name))) ∧
      dictGet (registerTool st t).1 t.name = some existing) ∧
    (∀ (st : ServerTools) (t : ToolDefn), dictGet st t.name = none →
      registerTool st t = (st ++ [(t.name, t)], none)) := by
  constructor
  · intro st t existing h
    constructor
    · simp [registerTool, h]
    · simp [registerTool, h]
  · intro st t h
    simp [registerTool, h, dictSet_absent st t.name t h]

/-- C9 witness: re-registering the sample tool fails with the duplicate
error and the catalog still maps the name to the original entry. -/
theorem register_duplicate_rejected_witness :
    registerTool [(str "dummy", tool0)] tool0 =
      ([(str "dummy", tool0)], some (.exc (alreadyRegisteredMsg tool0.name))) ∧
    dictGet (registerTool [(str "dummy", tool0)] tool0).1 tool0.name = some tool0 :=
  register_duplicate_rejected.1 [(str "dummy", tool0)] tool0 tool0 (by decide)

/-- C7: `_apply_update` semantics — an absolute numeric update replaces the
current value; a `%`-suffixed string with parsed magnitude `n` fails
UpdateError without a current value and otherwise yields
`current * (1 + n / 100)`; a `+`/`-`-prefixed delta string fails
UpdateError without a current value and otherwise yields `current + n`
(resp. `current - n`) for the parsed unsigned magnitude `n`. -/
theorem apply_update_semantics :
    (∀ (c : Option PVal) (x : Rat), applyUpdate c (.num x) = .ok x) ∧
    (∀ sv : Str, sv.getLast? = some '%' →
      (applyUpdate none (.txt sv) =
        .error (.mcp (str "UpdateError") (str "Cannot apply percentage to unknown value"))) ∧
      (∀ (c n : Rat), parseFloat? (rstripPercent sv) = some n →
        applyUpdate (some (.num c)) (.txt sv) = .ok (c * (1 + n / 100)))) ∧
    (∀ sv : Str, sv.getLast? ≠ some '%' → (sv.head? = some '+' ∨ sv.head? = some '-') →
      (applyUpdate none (.txt sv) =
        .error (.mcp (str "UpdateError") (str "Cannot apply relative change to unknown value"))) ∧
      (∀ (c n : Rat) (t : Str), sv = '+' :: t → parseUnsigned? t = some n →
        applyUpdate (some (.num c)) (.txt sv) = .ok (c + n)) ∧
      (∀ (c n : Rat) (t : Str), sv = '-' :: t → parseUnsigned? t = some n →
        applyUpdate (some (.num c)) (.txt sv) = .ok (c - n))) := by
  refine ⟨fun c x => rfl, ?_, ?_⟩
  · intro sv hpct
    refine ⟨by simp [applyUpdate, hpct], ?_⟩
    intro c n hparse
    simp [applyUpdate, hpct, hparse]
  · intro sv hnp hsign
    refine ⟨by simp [applyUpdate, hnp, hsign], ?_, ?_⟩
    · intro c n t hsv hparse
      subst hsv
      have hpf : parseFloat? ('+' :: t) = some n := by simpa [parseFloat?] using hparse
      simp [applyUpdate, hnp, hsign, hpf]
    · intro c n t hsv hparse
      subst hsv
      have hpf : parseFloat? ('-' :: t) = some (-n) := by simp [parseFloat?, hparse]
      simp [applyUpdate, hnp, hsign, hpf, sub_eq_add_neg]

/-- C7 witness: applying `"+10%"` to a current value of 30 yields
`30 * (1 + 10/100)` (that is, 33). -/
theorem apply_update_semantics_witness :
    applyUpdate (some (.num 30)) (.txt (str "+10%")) = .ok (30 * (1 + (10 : Rat) / 100)) :=
  (apply_update_semantics.2.1 (str "+10%") (by decide)).2 30 10 (by decide)

/-- C3 counterexample: a batch `{span: "+10%", area: 85}` on a live session
and existing component collects no warning and applies nothing — the call
fails wholesale with `ParameterError "Failed to apply parameter updates"`
(the handler's 3-tuple unpack of the `SessionData` returned by
`require_session` raises `TypeError` before the update loop runs) and the
registry is unchanged, refuting the claim that per-key failures are
collected as warnings while applied keys stay visible in a returned map. -/
theorem set_params_never_collects_warnings :
    setHighLevelParameters [(sid0, sessW1)] sid0 (str "W1")
        [(str "span", .txt (str "+10%")), (str "area", .num 85)] =
      (.error (.mcp (str "ParameterError") (str "Failed to apply parameter updates")),
       [(sid0, sessW1)]) := by
  decide

/-- C3 amended: every `set_high_level_parameters` call on a live session —
whatever the component uid and the updates — fails with
`ParameterError "Failed to apply parameter updates"` and leaves the
registry (hence every parameter map) unchanged: the handler's tuple
unpacking of the `SessionData` raises `TypeError` before any update is
attempted, and the generic except arm wraps it; no batch ever runs and no
warning is ever collected at the call level. -/
theorem set_params_live_session_fails (r : Registry) (sid uid : Str)
    (updates : List (Str × PVal)) (d : SessionData) (h : dictGet r sid = some d) :
    setHighLevelParameters r sid uid updates =
      (.error (.mcp (str "ParameterError") (str "Failed to apply parameter updates")), r) := by
  simp [setHighLevelParameters, requireSession, smGet, h, unpack3]

/-- C3 amended witness: a concrete single-update call on the live sample
session fails with the ParameterError and an unchanged registry. -/
theorem set_params_live_session_fails_witness :
    setHighLevelParameters [(sid0, sessW1)] sid0 (str "W1") [(str "span", .num 30)] =
      (.error (.mcp (str "ParameterError") (str "Failed to apply parameter updates")),
       [(sid0, sessW1)]) :=
  set_params_live_session_fails [(sid0, sessW1)] sid0 (str "W1")
    [(str "span", .num 30)] sessW1 rfl

/-- C4 counterexample: a document whose wings category defines the uid `W1`
twice parses into a configuration holding two components with that uid
(refuting the exactly-once parse invariant), and `list_geometric_components`
on a session holding that configuration does not return each uid exactly
once — it returns no listing at all, failing with
`ListError "Failed to list components"` (the handler's 3-tuple unpack of
the `SessionData` raises `TypeError`). -/
theorem duplicate_uid_preserved :
    ((parseCpacs dupDoc).allComponents.map (fun c => c.uid)).count (str "W1") = 2 ∧
    listGeometricComponents [(sid0, sessDup)] sid0 none =
      .error (.mcp (str "ListError") (str "Failed to list components")) := by
  exact ⟨by decide, by decide⟩

/-- C4 amended: parsing preserves every component occurrence — each matched
element yields exactly one component, with no deduplication, so a uid
repeated in the source document stays repeated; `list_geometric_components`
never returns a listing on a live session (every call fails with
`ListError "Failed to list components"` from the handler's tuple unpack of
the `SessionData`); "first occurrence wins" holds for uid lookup:
`find_component` returns the first component carrying the uid in wings →
fuselages → rotors → engines order, every earlier component having a
different uid. -/
theorem list_components_and_first_match :
    (∀ doc : ParsedXml, (parseCpacs doc).allComponents.length =
      doc.wingElems.length + doc.fuselageElems.length +
        doc.rotorElems.length + doc.engineElems.length) ∧
    (∀ (r : Registry) (sid : Str) (d : SessionData) (tf : Option Str),
      dictGet r sid = some d →
      listGeometricComponents r sid tf =
        .error (.mcp (str "ListError") (str "Failed to list components"))) ∧
    (∀ (c : CPACSConfiguration) (uid : Str) (comp : ComponentDefinition),
      c.findComponent uid = some comp →
      comp.uid = uid ∧ ∃ l₁ l₂, c.allComponents = l₁ ++ comp :: l₂ ∧
        ∀ x ∈ l₁, x.uid ≠ uid) := by
  refine ⟨?_, ?_, ?_⟩
  · intro doc
    simp [parseCpacs, CPACSConfiguration.allComponents, parseComponents]
    omega
  · intro r sid d tf h
    simp [listGeometricComponents, requireSession, smGet, h, unpack3]
  · intro c uid comp h
    have h' : c.allComponents.find? (fun comp => decide (comp.uid = uid)) = some comp := h
    obtain ⟨hp, l₁, l₂, heq, hall⟩ :=
      find_first_split (fun comp => decide (comp.uid = uid)) c.allComponents comp h'
    refine ⟨by simpa using hp, l₁, l₂, heq, ?_⟩
    intro x hx
    simpa using hall x hx

/-- C4 amended witness: a filtered listing call on the live duplicate-uid
session fails with the ListError. -/
theorem list_components_and_first_match_witness :
    listGeometricComponents [(sid0, sessDup)] sid0 (some (str "wing")) =
      .error (.mcp (str "ListError") (str "Failed to list components")) :=
  list_components_and_first_match.2.1 [(sid0, sessDup)] sid0 sessDup
    (some (str "wing")) rfl

/-- C2: an `export_component_mesh` request whose format string is outside
the recognized set {stl, vtk, collada, su2} fails with the export-kind
structured error (`MeshExportError`) for every registry state, session
token, component uid and engine, with an empty engine-call log — no engine
extraction call is made. -/
theorem unrecognized_format_fails_fast (r : Registry) (sid uid fmt : Str) (eng : MeshEngine)
    (h : recognizedMeshFormats.contains fmt = false) :
    exportComponentMesh r sid uid fmt eng =
      (.error (.mcp (str "MeshExportError") (str "Failed to export component mesh")), [], r) := by
  unfold exportComponentMesh
  split
  · rfl
  · next hc => exact absurd (by rw [h]; rfl) hc

/-- C2 witness: requesting format `obj` fails with the export error and no
engine call, even on an empty registry. -/
theorem unrecognized_format_fails_fast_witness :
    exportComponentMesh [] sid0 (str "W1") (str "obj") engNone =
      (.error (.mcp (str "MeshExportError") (str "Failed to export component mesh")), [], []) :=
  unrecognized_format_fails_fast [] sid0 (str "W1") (str "obj") engNone (by decide)

theorem validateMeshBytes_ok_inv (b : Bytes) (fmt : Str) (comp : ComponentDefinition)
    (out : Bytes) (h : validateMeshBytes b fmt comp = .ok out) :
    out = b ∧ b ≠ [] ∧ looksLikeHandle b = false := by
  unfold validateMeshBytes at h
  split at h
  · cases h
  · split at h
    · cases h
    · split at h
      · cases h
      · next hlen hhandle _ =>
        injection h with h4
        exact ⟨h4.symm, fun hb => hlen (by simp [hb]), by simpa using hhandle⟩

/-- C5 (code-bug evaluation): a mesh export on a live session with an
existing component, a valid format and a fully working engine route never
reaches any export strategy or `_validate_mesh_bytes` — the call fails with
the generic `MeshExportError "Failed to export component mesh"` (the
handler's 3-tuple unpack of the `SessionData` raises `TypeError`), with no
engine call logged and the registry unchanged.  The claimed validation
(empty or sentinel payloads yielding an ExportError naming the format and
uid, valid payloads returned) matches `require_session`'s declared triple
contract and the repository's own tests, which this slip contradicts. -/
theorem mesh_export_unpack_failure :
    exportComponentMesh [(sid0, sessW1)] sid0 (str "W1") (str "stl") engGood =
      (.error (.mcp (str "MeshExportError") (str "Failed to export component mesh")),
       [], [(sid0, sessW1)]) := by
  decide

/-- C6 counterexample: with an engine whose `exportFusedSTEP` produces CAD
bytes, the export call on a live session returns no result carrying any
source tag at all — it fails with
`CadExportError "Failed to export configuration"` (the handler's 3-tuple
unpack of the `SessionData` raises `TypeError` before the capability
probe), refuting the claim that the result carries an `"engine"`/`"stub"`
source tag. -/
theorem cad_export_never_tags :
    exportConfigurationCad [(sid0, sessC)] sid0 (str "step") cadEngStep =
      (.error (.mcp (str "CadExportError") (str "Failed to export configuration")),
       [(sid0, sessC)]) := by
  decide

/-- C6 amended: every CAD export call on a live session fails with
`CadExportError "Failed to export configuration"` and leaves the registry
unchanged, whatever format is requested and whatever export entry points
the engine exposes: the handler's tuple unpacking of the `SessionData`
raises `TypeError` before the capability probe, so no result — and no
source tag — is ever produced and no stub is ever substituted. -/
theorem cad_export_live_session_fails (r : Registry) (sid fmt : Str) (eng : CadEngine)
    (d : SessionData) (h : dictGet r sid = some d) :
    exportConfigurationCad r sid fmt eng =
      (.error (.mcp (str "CadExportError") (str "Failed to export configuration")), r) := by
  unfold exportConfigurationCad
  split
  · rfl
  · simp [requireSession, smGet, h, unpack3]

/-- C6 amended witness: a concrete IGES export on the live sample session
with a method-less engine fails with the CadExportError. -/
theorem cad_export_live_session_fails_witness :
    exportConfigurationCad [(sid0, sessC)] sid0 (str "iges") cadEngEmpty =
      (.error (.mcp (str "CadExportError") (str "Failed to export configuration")),
       [(sid0, sessC)]) :=
  cad_export_live_session_fails [(sid0, sessC)] sid0 (str "iges") cadEngEmpty sessC rfl

/-- C10: mesh export and CAD export leave the session registry — and hence
every session's parsed Configuration with its component lists, parameter
maps and bounding boxes — unchanged, for every input and every engine
behavior, whether the call succeeds or fails. -/
theorem export_preserves_session_state (r : Registry) (sid uid fmt : Str)
    (engM : MeshEngine) (engC : CadEngine) :
    (exportComponentMesh r sid uid fmt engM).2.2 = r ∧
    (exportConfigurationCad r sid fmt engC).2 = r := by
  constructor
  · unfold exportComponentMesh
    repeat first | rfl | split
  · unfold exportConfigurationCad
    repeat first | rfl | split

end TiglMcp
